import Mathlib

set_option maxRecDepth 4000

/-!
Verification of the content-relay pipeline: a shallow embedding of the two
pipeline variants (`X_post_forward.py`, relaying posts of a monitored account
to a chat channel, and `news_bot.py`, posting a formatted news digest) and
proofs about cursor handling, filtering, summarization, formatting and
delivery-error handling.

External collaborators (the Twitter/News HTTP APIs, the Telegram API, the
spaCy NLP model, `datetime.now()` and `random.choice`) are modelled as
explicit inputs: a fetch result, a destination response, a sentence splitter
and tokenizer, a chosen emoji and date string.  Everything the repository's
own code computes is translated directly from the source.
-/

namespace XPostForward

/-- One media reference of a tweet, as read from
`tweet.extended_entities['media']`: a `type` tag (`"photo"` or other) and the
`media_url_https` location. -/
structure Media where
  type : String
  media_url_https : String
deriving DecidableEq, Repr

/-- One item fetched from the monitored account.  `entities_has_media` models
the Python test `'media' in tweet.entities`; `media` models
`tweet.extended_entities['media']` (empty when the tweet carries no media). -/
structure Tweet where
  id : Nat
  full_text : String
  entities_has_media : Bool
  media : List Media
deriving DecidableEq, Repr

/-- The provider call `twitter_api.user_timeline(...)` as seen by
`get_tweets`: either a list of tweets in the provider's native newest-first
order, or a raised provider exception. -/
inductive FetchResult where
  | ok (tweets : List Tweet)
  | exc
deriving DecidableEq, Repr

/-- Observable events of one cycle of the run loop: an assignment to the
stored cursor `last_tweet_id`, or the delivery of one tweet to the channel. -/
inductive Event where
  | cursorSet (id : Nat)
  | deliver (id : Nat)
deriving DecidableEq, Repr

/-- `get_tweets` (lines 41-53): on success it stores `tweets[0].id` into the
global `last_tweet_id` whenever the batch is nonempty and returns the batch;
on a provider exception it logs and returns `[]`, leaving the cursor alone.
The result is the returned batch, the new cursor value, and the cursor events
emitted during the call. -/
def get_tweets (fetched : FetchResult) (last_tweet_id : Option Nat) :
    List Tweet × Option Nat × List Event :=
  match fetched with
  | .exc => ([], last_tweet_id, [])
  | .ok [] => ([], last_tweet_id, [])
  | .ok (t :: ts) => (t :: ts, some t.id, [Event.cursorSet t.id])

/-- One iteration of the `while True` loop of `main` (lines 74-81): call
`get_tweets`, then send every returned tweet oldest-first
(`for tweet in reversed(tweets)`).  The result is the cursor value after the
cycle and the ordered event trace of the cycle. -/
def main_cycle (fetched : FetchResult) (last_tweet_id : Option Nat) :
    Option Nat × List Event :=
  let r := get_tweets fetched last_tweet_id
  (r.2.1, r.2.2 ++ r.1.reverse.map fun t => Event.deliver t.id)

/-- The item ids delivered during a cycle, in delivery order. -/
def deliveredIds (trace : List Event) : List Nat :=
  trace.filterMap fun e =>
    match e with
    | .deliver i => some i
    | .cursorSet _ => none

/-- The update-after-send discipline on a trace: every assignment of `id` to
the cursor is preceded by the delivery of item `id`. -/
def updateAfterSend (trace : List Event) : Bool :=
  go [] trace
where
  /-- `delivered` accumulates the ids already delivered before the current
  position. -/
  go (delivered : List Nat) : List Event → Bool
    | [] => true
    | .deliver i :: rest => go (i :: delivered) rest
    | .cursorSet i :: rest => delivered.contains i && go delivered rest

/-- The stubbed newest-first fetch batch of the end-to-end scenario: items
101, 102, 103, newest first. -/
def stubBatch : List Tweet :=
  [⟨103, "third", false, []⟩, ⟨102, "second", false, []⟩, ⟨101, "first", false, []⟩]

/-- The message built by `send_to_telegram` (line 57). -/
def tweet_caption (account : String) (t : Tweet) : String :=
  "New tweet from @" ++ account ++ ":\n\n" ++ t.full_text

/-- What one call of `send_to_telegram` hands to the destination: a photo
with a caption, or a plain text message. -/
inductive OutMsg where
  | photo (url : String) (caption : String)
  | text (message : String)
deriving DecidableEq, Repr

/-- `send_to_telegram` (lines 55-72): when `'media' in tweet.entities`, the
loop over `tweet.extended_entities['media']` sends a photo for the first
entry of type `"photo"` and returns; with no photo entry (or no media at
all) the plain message is sent. -/
def send_to_telegram (account : String) (t : Tweet) : OutMsg :=
  if t.entities_has_media then
    match t.media.find? (fun m => m.type == "photo") with
    | some m => .photo m.media_url_https (tweet_caption account t)
    | none => .text (tweet_caption account t)
  else .text (tweet_caption account t)

end XPostForward

namespace NewsBot

/-- One article of the News API payload, with the fields the code reads:
`article['source']['name']`, `article['title']`, `article['content']`,
`article['url']`. -/
structure Article where
  source_name : String
  title : String
  content : String
  url : String
deriving DecidableEq, Repr

/-- The allow-listed source names (line 26). -/
def ALLOWED_SOURCES : List String :=
  ["Forbes", "TechCrunch", "Wired", "MIT Technology Review", "VentureBeat"]

/-- The keyword set (line 27). -/
def KEYWORDS : List String :=
  ["AI", "artificial intelligence", "machine learning", "deep learning",
   "neural networks", "prompt engineering"]

/-- Python `str.lower()` on one character (ASCII range, which covers every
string the code lowers). -/
def lowerChar (c : Char) : Char :=
  if 65 ≤ c.toNat ∧ c.toNat ≤ 90 then Char.ofNat (c.toNat + 32) else c

/-- Python `str.lower()`. -/
def strLower (s : String) : String := String.mk (s.toList.map lowerChar)

/-- Character-list prefix test (the base case of the substring test). -/
def isPfx : List Char → List Char → Bool
  | [], _ => true
  | _ :: _, [] => false
  | a :: as, b :: bs => a == b && isPfx as bs

/-- Character-list substring test: `needle` occurs contiguously in the
second argument. -/
def isSubChars (needle : List Char) : List Char → Bool
  | [] => needle.isEmpty
  | c :: rest => isPfx needle (c :: rest) || isSubChars needle rest

/-- The Python membership test `needle in hay` on strings. -/
def strContains (hay needle : String) : Bool :=
  isSubChars needle.toList hay.toList

/-- The filter condition of `fetch_ai_news` (lines 41-42):
`article['source']['name'] in ALLOWED_SOURCES and any(keyword.lower() in
article['title'].lower() for keyword in KEYWORDS)`. -/
def article_qualifies (sources keywords : List String) (a : Article) : Bool :=
  sources.contains a.source_name
    && keywords.any fun keyword => strContains (strLower a.title) (strLower keyword)

/-- The News API call as seen by `fetch_ai_news`: a response with a status
and, when the JSON object has an `'articles'` key, its article list — or a
raised client exception. -/
inductive NewsResult where
  | resp (status : Nat) (articles : Option (List Article))
  | exc
deriving DecidableEq, Repr

/-- `fetch_ai_news` (lines 29-51): status 200 with an `'articles'` key
returns the filtered list; status 200 without the key logs and returns
`None`; any other status logs and returns `None`.  The function body has no
exception handler, so a client exception propagates (modelled as
`Except.error`). -/
def fetch_ai_news : NewsResult → Except Unit (Option (List Article))
  | .resp status articles =>
      if status == 200 then
        match articles with
        | some l =>
            .ok (some (l.filter (article_qualifies ALLOWED_SOURCES KEYWORDS)))
        | none => .ok none
      else .ok none
  | .exc => .error ()

/-- One spaCy token as the code reads it: its text and the stopword /
punctuation flags. -/
structure SpacyToken where
  text : String
  is_stop : Bool
  is_punct : Bool
deriving DecidableEq, Repr

/-- The spaCy sentence splitter `[sent.text for sent in nlp(text).sents]`, an
external collaborator of the summarizer. -/
abbrev SentSplit := String → List String

/-- The spaCy tokenizer `[token for token in nlp(s)]`, an external
collaborator of the summarizer. -/
abbrev Tokenizer := String → List SpacyToken

/-- Line 59: the case-folded non-stopword, non-punctuation tokens of the
whole document. -/
def doc_words (tok : Tokenizer) (text : String) : List String :=
  ((tok text).filter fun t => !t.is_stop && !t.is_punct).map fun t =>
    strLower t.text

/-- Line 60 together with the `.get(w, 0)` of line 62: the dictionary maps
each document word to its count and a missing key defaults to 0, so the
lookup is exactly the count in `doc_words`. -/
def word_freq (tok : Tokenizer) (text word : String) : Nat :=
  (doc_words tok text).count word

/-- Line 62: a sentence's score, the sum of the document frequencies of all
its tokens (again case-folded). -/
def sentence_score (tok : Tokenizer) (text sentence : String) : Nat :=
  ((tok sentence).map fun t => word_freq tok text (strLower t.text)).sum

/-- Helper of `dictKeys`: drop any sentence already seen. -/
def dictKeysGo (seen : List String) : List String → List String
  | [] => []
  | s :: rest =>
      if seen.contains s then dictKeysGo seen rest
      else s :: dictKeysGo (s :: seen) rest

/-- The key order of the dict comprehension of line 62: each distinct
sentence once, in order of first occurrence. -/
def dictKeys (l : List String) : List String := dictKeysGo [] l

/-- Stable insertion into a list already in descending score order: the new
sentence goes before the first entry of strictly smaller score, hence after
every earlier entry of equal score. -/
def insertDesc (score : String → Nat) (s : String) : List String → List String
  | [] => [s]
  | t :: ts => if score t ≤ score s then s :: t :: ts
               else t :: insertDesc score s ts

/-- Python's stable `sorted(..., key=sentence_scores.get, reverse=True)` of
line 63: descending score, ties kept in original order. -/
def sortDesc (score : String → Nat) : List String → List String
  | [] => []
  | s :: ss => insertDesc score s (sortDesc score ss)

/-- Line 63: the selected sentences, in descending score order. -/
def summary_sentences (sp : SentSplit) (tok : Tokenizer) (text : String)
    (num_sentences : Nat) : List String :=
  (sortDesc (sentence_score tok text) (dictKeys (sp text))).take num_sentences

/-- `summarize_text` (lines 53-65): select and join with a single space. -/
def summarize_text (sp : SentSplit) (tok : Tokenizer) (text : String)
    (num_sentences : Nat) : String :=
  String.intercalate " " (summary_sentences sp tok text num_sentences)

/-- Helper of `pySplit`: `cur` holds the reversed current word. -/
def pySplitGo (cur : List Char) : List Char → List (List Char)
  | [] => if cur.isEmpty then [] else [cur.reverse]
  | c :: rest =>
      if c.isWhitespace then
        if cur.isEmpty then pySplitGo [] rest
        else cur.reverse :: pySplitGo [] rest
      else pySplitGo (c :: cur) rest

/-- Python `content.split()`: split on runs of whitespace, no empty words. -/
def pySplit (s : String) : List (List Char) := pySplitGo [] s.toList

/-- Lines 68-69: strip every `<` and `>` character and count the words. -/
def word_count (content : String) : Nat :=
  (pySplit (String.mk (content.toList.filter fun c =>
    !(c == '<') && !(c == '>')))).length

/-- `calculate_reading_time` (lines 67-77); `math.ceil(n / 200)` on a natural
word count `n` is `(n + 199) / 200` in natural division. -/
def calculate_reading_time (content : String) : String :=
  let reading_time_minutes := (word_count content + 199) / 200
  if reading_time_minutes < 1 then "< 1 min"
  else if reading_time_minutes == 1 then "1 min"
  else toString reading_time_minutes ++ " mins"

/-- The keyword-to-emoji table of `get_news_emoji` (lines 80-85), in
insertion order. -/
def emoji_keywords : List (String × String) :=
  [("research", "🔬"), ("breakthrough", "💡"), ("robot", "🤖"),
   ("language", "🗣️"), ("vision", "👁️"), ("ethics", "🤔"),
   ("business", "💼"), ("health", "🏥"), ("data", "📊"), ("cloud", "☁️"),
   ("security", "🔒"), ("innovation", "🚀"), ("startup", "🌱"),
   ("investment", "💰"), ("education", "🎓"), ("future", "🔮")]

/-- `get_news_emoji` (lines 79-89): the emoji of the first table keyword
occurring in the lowered title, else the default. -/
def get_news_emoji (title : String) : String :=
  match emoji_keywords.find? (fun kv => strContains (strLower title) kv.1) with
  | some kv => kv.2
  | none => "🧠"

/-- One digest entry of `format_news_message` (lines 100-111), for the
article at position `index` (1-based) of `total` rendered entries. -/
def entry_block (sp : SentSplit) (tok : Tokenizer) (total index : Nat)
    (a : Article) : String :=
  toString index ++ ". " ++ get_news_emoji a.title ++ " <b>" ++ a.title
    ++ "</b>\n\n"
    ++ "   📰 <i>" ++ a.source_name ++ "</i> | ⏱️ <i>"
    ++ calculate_reading_time a.content ++ "</i>\n\n"
    ++ "   " ++ (summarize_text sp tok a.content 2).take 150 ++ "...\n\n"
    ++ "   🔗 <a href='" ++ a.url ++ "'>Read full article</a>\n\n"
    ++ if index < total then "   ──────────────────────\n\n" else ""

/-- The `for index, article in enumerate(articles[:5], start=1)` loop. -/
def entry_blocks (sp : SentSplit) (tok : Tokenizer) (total index : Nat) :
    List Article → String
  | [] => ""
  | a :: rest =>
      entry_block sp tok total index a
        ++ entry_blocks sp tok total (index + 1) rest

/-- `format_news_message` (lines 91-118).  The randomly chosen header emoji
and the current date, both external, are passed in. -/
def format_news_message (sp : SentSplit) (tok : Tokenizer)
    (header_emoji date_str : String) (articles : List Article) : String :=
  if articles.isEmpty then "No relevant AI news found at the moment."
  else
    header_emoji ++ " <b>AI News Roundup</b> " ++ header_emoji ++ "\n\n"
      ++ "📅 <i>" ++ date_str ++ "</i>\n\n"
      ++ "🔥 <b>Top AI Stories:</b>\n\n"
      ++ entry_blocks sp tok (articles.take 5).length 1 (articles.take 5)
      ++ "\n#AINews #ArtificialIntelligence #MachineLearning #TechInnovation\n\n"
      ++ "💬 <i>Want to discuss these stories? Join our AI community chat!</i>\n"
      ++ "🔔 <i>Stay tuned for more AI updates!</i>"

/-- `get_ai_news` (lines 120-125): format the fetched articles when the list
is truthy (non-`None` and nonempty), otherwise apologize.  An exception from
the fetch propagates through the `await`. -/
def get_ai_news (sp : SentSplit) (tok : Tokenizer)
    (header_emoji date_str : String) (r : NewsResult) : Except Unit String :=
  match fetch_ai_news r with
  | .error e => .error e
  | .ok news_articles =>
      match news_articles with
      | some (a :: rest) =>
          .ok (format_news_message sp tok header_emoji date_str (a :: rest))
      | _ => .ok "Sorry, I couldn't fetch any news at the moment. Please try again later."

/-- The Telegram `sendMessage` call as seen by `send_telegram_message`: a
response with a status and a body (its text, or its JSON rendered), or a
raised client exception carrying a message. -/
inductive TgResponse where
  | resp (status : Nat) (body : String)
  | exc (e : String)
deriving DecidableEq, Repr

/-- One log record the delivery code writes. -/
inductive LogEntry where
  | info (msg : String)
  | error (msg : String)
deriving DecidableEq, Repr

/-- `send_telegram_message` (lines 127-150): the result is the list of log
entries the call writes and what crosses the boundary to the caller — always
a plain return (`Except.ok ()`), whatever the destination answered, since the
whole request sits in a `try`/`except` and both response branches only
log. -/
def send_telegram_message (channel : String) (response : TgResponse) :
    List LogEntry × Except Unit Unit :=
  (LogEntry.info ("Attempting to send message to channel: " ++ channel) ::
    (match response with
     | .resp status body =>
         if status == 200 then
           [LogEntry.info "Message sent successfully",
            LogEntry.info ("Response: " ++ body)]
         else
           [LogEntry.error ("Failed to send message: " ++ toString status),
            LogEntry.error ("Response: " ++ body)]
     | .exc e => [LogEntry.error ("Error while sending message: " ++ e)]),
   Except.ok ())

/-- Concrete two-sentence text for the summarizer order counterexample. -/
def exText : String := "Cats nap. Dogs dogs bark."

/-- First sentence of `exText`. -/
def exS1 : String := "Cats nap."

/-- Second sentence of `exText`. -/
def exS2 : String := "Dogs dogs bark."

/-- The sentence splitting spaCy produces on `exText`. -/
def exSplit : SentSplit := fun s => if s = exText then [exS1, exS2] else []

/-- The tokenization spaCy produces on `exText` and its sentences: the
period is punctuation, and none of "cats", "nap", "dogs", "bark" is in
spaCy's English stop-word list (`is_stop` is false for them in any
casing). -/
def exTok : Tokenizer := fun s =>
  if s = exS1 then
    [⟨"Cats", false, false⟩, ⟨"nap", false, false⟩, ⟨".", false, true⟩]
  else if s = exS2 then
    [⟨"Dogs", false, false⟩, ⟨"dogs", false, false⟩, ⟨"bark", false, false⟩,
     ⟨".", false, true⟩]
  else if s = exText then
    [⟨"Cats", false, false⟩, ⟨"nap", false, false⟩, ⟨".", false, true⟩,
     ⟨"Dogs", false, false⟩, ⟨"dogs", false, false⟩, ⟨"bark", false, false⟩,
     ⟨".", false, true⟩]
  else []

/-- A content string of exactly 200 words. -/
def content200 : String := String.intercalate " " (List.replicate 200 "word")

/-- A content string of exactly 201 words. -/
def content201 : String := content200 ++ " extra"

/-- A one-sentence splitter for the degenerate-input witnesses. -/
def wSplit : SentSplit := fun s => if s = "Hello." then ["Hello."] else []

/-- A trivial tokenizer for the degenerate-input witnesses. -/
def wTok : Tokenizer := fun _ => []

end NewsBot

open XPostForward NewsBot

/-- C1 counterexample: with the stubbed fetch of items 101-103 (newest first)
and stored cursor 100, the cycle's trace sets the cursor to 103 as its very
first event, before any delivery; the update-after-send discipline fails on
this trace. -/
theorem cursor_set_before_delivery :
    (main_cycle (.ok stubBatch) (some 100)).2
      = [Event.cursorSet 103, Event.deliver 101, Event.deliver 102,
         Event.deliver 103]
    ∧ updateAfterSend (main_cycle (.ok stubBatch) (some 100)).2 = false := by
  constructor <;> rfl

/-- C1 (amended): the cursor is updated during the fetch step, before any
delivery: in every cycle whose fetch succeeds with a nonempty batch, the first
event of the trace assigns the newest item's id to the cursor and all
deliveries follow it; the cycle ends with the cursor at the newest item's
id. -/
theorem cursor_update_before_send (t : Tweet) (ts : List Tweet)
    (last_tweet_id : Option Nat) :
    (main_cycle (.ok (t :: ts)) last_tweet_id).2
      = Event.cursorSet t.id :: ((t :: ts).reverse.map fun u => Event.deliver u.id)
    ∧ (main_cycle (.ok (t :: ts)) last_tweet_id).1 = some t.id := by
  constructor <;> rfl

/-- C2: with a stubbed fetch returning items 101, 102, 103 newest-first and a
stored cursor of 100, one cycle delivers 101, 102, 103 in that (oldest-first)
order and the cursor afterwards reads 103. -/
theorem end_to_end_scenario :
    deliveredIds (main_cycle (.ok stubBatch) (some 100)).2 = [101, 102, 103]
    ∧ (main_cycle (.ok stubBatch) (some 100)).1 = some 103 := by
  constructor <;> rfl

/-- The character-list prefix test agrees with `List.IsPrefix`. -/
theorem isPfx_iff : ∀ (n h : List Char), isPfx n h = true ↔ n <+: h
  | [], h => by simp [isPfx]
  | a :: as, [] => by simp [isPfx]
  | a :: as, b :: bs => by
    simp [isPfx, isPfx_iff as bs, List.cons_prefix_cons]

/-- The character-list substring test agrees with `List.IsInfix`. -/
theorem isSubChars_iff : ∀ (n h : List Char), isSubChars n h = true ↔ n <:+: h
  | n, [] => by simp [isSubChars, List.isEmpty_iff]
  | n, c :: rest => by
    simp [isSubChars, isPfx_iff, isSubChars_iff n rest, List.infix_cons_iff]

/-- The Python string membership test agrees with character-list infixes. -/
theorem strContains_iff (hay needle : String) :
    strContains hay needle = true ↔ needle.toList <:+: hay.toList :=
  isSubChars_iff _ _

/-- C4: an article qualifies iff its source name is an exact member of the
allow-list and some keyword occurs case-insensitively in the title; with the
configured allow-list and keywords, "New AI chip unveiled" from "Forbes"
qualifies, the same title from "RandomBlog" does not, and "Quarterly
earnings" from "Forbes" does not. -/
theorem filter_correctness :
    (∀ (sources keywords : List String) (a : Article),
        article_qualifies sources keywords a = true
          ↔ a.source_name ∈ sources
            ∧ ∃ k ∈ keywords, (strLower k).toList <:+: (strLower a.title).toList)
    ∧ article_qualifies ALLOWED_SOURCES KEYWORDS
        ⟨"Forbes", "New AI chip unveiled", "", ""⟩ = true
    ∧ article_qualifies ALLOWED_SOURCES KEYWORDS
        ⟨"RandomBlog", "New AI chip unveiled", "", ""⟩ = false
    ∧ article_qualifies ALLOWED_SOURCES KEYWORDS
        ⟨"Forbes", "Quarterly earnings", "", ""⟩ = false := by
  refine ⟨fun sources keywords a => ?_, by decide, by decide, by decide⟩
  simp [article_qualifies, List.any_eq_true, strContains_iff]

/-- C5 counterexample: on a non-success status the news fetch returns `None`,
not an empty article list, and a client exception propagates past
`fetch_ai_news` instead of being swallowed. -/
theorem fetch_error_not_empty_list :
    fetch_ai_news (.resp 500 none) = Except.ok none
    ∧ (Except.ok (none : Option (List Article)) : Except Unit (Option (List Article)))
        ≠ Except.ok (some [])
    ∧ fetch_ai_news .exc = Except.error () := by
  refine ⟨rfl, by simp, rfl⟩

/-- C5 (amended): `get_tweets` returns an empty batch and an unchanged cursor
on a provider exception (nothing propagates); `fetch_ai_news` returns `None`
— not an empty sequence — on any non-success status and on a success payload
without an `'articles'` key, and a provider exception propagates past it. -/
theorem fetch_error_handling :
    (∀ cursor, get_tweets .exc cursor = ([], cursor, []))
    ∧ (∀ (status : Nat) (payload : Option (List Article)),
        status ≠ 200 → fetch_ai_news (.resp status payload) = Except.ok none)
    ∧ fetch_ai_news (.resp 200 none) = Except.ok none
    ∧ fetch_ai_news .exc = Except.error () := by
  refine ⟨fun cursor => rfl, fun status payload h => ?_, rfl, rfl⟩
  simp [fetch_ai_news, h]

/-- C5 witness: the amended error-handling facts at concrete inputs. -/
theorem fetch_error_handling_witness :
    get_tweets .exc (some 7) = ([], some 7, [])
    ∧ (500 ≠ 200
        ∧ fetch_ai_news (.resp 500 (some [])) = Except.ok none) := by
  exact ⟨fetch_error_handling.1 (some 7),
    by decide, fetch_error_handling.2.1 500 (some []) (by decide)⟩

/-- Inserting into a list permutes consing onto it. -/
theorem insertDesc_perm (score : String → Nat) (s : String) :
    ∀ l : List String, List.Perm (insertDesc score s l) (s :: l)
  | [] => List.Perm.refl _
  | t :: ts => by
    rw [insertDesc]
    split
    · exact List.Perm.refl _
    · exact ((insertDesc_perm score s ts).cons t).trans (List.Perm.swap s t ts)

/-- The stable descending sort permutes its input. -/
theorem sortDesc_perm (score : String → Nat) :
    ∀ l : List String, List.Perm (sortDesc score l) l
  | [] => List.Perm.refl _
  | s :: ss =>
      (insertDesc_perm score s (sortDesc score ss)).trans
        ((sortDesc_perm score ss).cons s)

/-- Insertion keeps the list in descending score order. -/
theorem insertDesc_sorted (score : String → Nat) (s : String)
    {l : List String} (hl : l.Sorted fun a b => score b ≤ score a) :
    (insertDesc score s l).Sorted fun a b => score b ≤ score a := by
  induction l with
  | nil => simp [insertDesc]
  | cons t ts ih =>
    rw [List.sorted_cons] at hl
    rw [insertDesc]
    split
    · rename_i hts
      refine List.sorted_cons.2 ⟨fun b hb => ?_, List.sorted_cons.2 hl⟩
      rcases List.mem_cons.1 hb with hbt | hb
      · exact hbt ▸ hts
      · exact (hl.1 b hb).trans hts
    · rename_i hts
      refine List.sorted_cons.2 ⟨fun b hb => ?_, ih hl.2⟩
      rcases List.mem_cons.1 ((insertDesc_perm score s ts).mem_iff.1 hb)
        with hbs | hb
      · exact hbs ▸ (Nat.lt_of_not_le hts).le
      · exact hl.1 b hb

/-- The stable descending sort leaves its output in descending score
order. -/
theorem sortDesc_sorted (score : String → Nat) :
    ∀ l : List String, (sortDesc score l).Sorted fun a b => score b ≤ score a
  | [] => List.sorted_nil
  | s :: ss => insertDesc_sorted score s (sortDesc_sorted score ss)

/-- Stability of the insertion step: within one score class, the inserted
element lands first and the rest keep their order. -/
theorem insertDesc_filter (score : String → Nat) (k : Nat) (s : String) :
    ∀ l : List String, (l.Sorted fun a b => score b ≤ score a) →
      (insertDesc score s l).filter (fun x => score x == k)
        = if score s = k then s :: l.filter (fun x => score x == k)
          else l.filter (fun x => score x == k)
  | [], _ => by
    by_cases h : score s = k <;>
      simp [insertDesc, List.filter_cons, beq_iff_eq, h]
  | t :: ts, hl => by
    rw [List.sorted_cons] at hl
    rw [insertDesc]
    split
    · rename_i hts
      by_cases h : score s = k <;>
        simp [List.filter_cons, beq_iff_eq, h]
    · rename_i hts
      have hst : score s < score t := Nat.lt_of_not_le hts
      rw [List.filter_cons, insertDesc_filter score k s ts hl.2]
      by_cases h : score s = k
      · have htk : ¬ score t = k := by omega
        simp [List.filter_cons, beq_iff_eq, h, htk]
      · by_cases ht : score t = k <;>
          simp [List.filter_cons, beq_iff_eq, h, ht]

/-- Stability of the stable descending sort: each score class keeps exactly
its original order. -/
theorem sortDesc_filter (score : String → Nat) (k : Nat) :
    ∀ l : List String,
      (sortDesc score l).filter (fun x => score x == k)
        = l.filter (fun x => score x == k)
  | [] => rfl
  | s :: ss => by
    rw [sortDesc, insertDesc_filter score k s _ (sortDesc_sorted score ss),
      sortDesc_filter score k ss, List.filter_cons]
    by_cases h : score s = k <;> simp [beq_iff_eq, h]

/-- C3 counterexample: on the two-sentence text "Cats nap. Dogs dogs bark."
the second sentence scores 5 against the first sentence's 2, and the
summarizer output joins the sentences in score order
"Dogs dogs bark. Cats nap.", not in their original order
"Cats nap. Dogs dogs bark.". -/
theorem summarizer_joins_in_score_order :
    summarize_text exSplit exTok exText 2 = "Dogs dogs bark. Cats nap."
    ∧ "Dogs dogs bark. Cats nap." ≠ exS1 ++ " " ++ exS2 := by
  constructor
  · rfl
  · decide

/-- C3 (amended): the summarizer selects the top `max_sentences` sentences by
frequency score with ties broken by original sentence order, but joins the
selected sentences with a single space in descending score order, not in
their original relative order: the selected list is the `max_sentences`-long
prefix of a permutation of the (first-occurrence-deduplicated) sentence list
that is sorted by descending score and keeps every score class in original
order. -/
theorem summarizer_selection (sp : SentSplit) (tok : Tokenizer)
    (text : String) (max_sentences : Nat) :
    summarize_text sp tok text max_sentences
      = String.intercalate " "
          ((sortDesc (sentence_score tok text) (dictKeys (sp text))).take
            max_sentences)
    ∧ (sortDesc (sentence_score tok text) (dictKeys (sp text))).Sorted
        (fun a b => sentence_score tok text b ≤ sentence_score tok text a)
    ∧ List.Perm (sortDesc (sentence_score tok text) (dictKeys (sp text)))
        (dictKeys (sp text))
    ∧ ∀ k, (sortDesc (sentence_score tok text) (dictKeys (sp text))).filter
          (fun s => sentence_score tok text s == k)
        = (dictKeys (sp text)).filter
            (fun s => sentence_score tok text s == k) :=
  ⟨rfl, sortDesc_sorted _ _, sortDesc_perm _ _, fun k => sortDesc_filter _ k _⟩

/-- C7: the summarizer is a pure function, so two calls on identical input
agree; the empty text (which spaCy splits into no sentences) summarizes to
the empty string; a text that splits into exactly one sentence summarizes to
that sentence unmodified. -/
theorem summarizer_determinism (sp : SentSplit) (tok : Tokenizer)
    (text : String) :
    summarize_text sp tok text 2 = summarize_text sp tok text 2
    ∧ (sp "" = [] → summarize_text sp tok "" 2 = "")
    ∧ (∀ s, sp text = [s] → summarize_text sp tok text 2 = s) := by
  refine ⟨rfl, fun h => ?_, fun s h => ?_⟩
  · simp only [summarize_text, summary_sentences, h]
    rfl
  · simp only [summarize_text, summary_sentences, h]
    rfl

/-- C7 witness: the degenerate-input facts at a concrete splitter and
tokenizer. -/
theorem summarizer_determinism_witness :
    (wSplit "" = [] ∧ summarize_text wSplit wTok "" 2 = "")
    ∧ (wSplit "Hello." = ["Hello."]
        ∧ summarize_text wSplit wTok "Hello." 2 = "Hello.") :=
  ⟨⟨rfl, (summarizer_determinism wSplit wTok "").2.1 rfl⟩,
   ⟨rfl, (summarizer_determinism wSplit wTok "Hello.").2.2 "Hello." rfl⟩⟩

/-- C8: the reading time is `ceil(word_count / 200)` minutes rendered as
text ("< 1 min" for zero), and at the boundaries exactly 200 words give
"1 min", 201 words give "2 mins", and 0 words give "< 1 min". -/
theorem reading_time_correct :
    (∀ content : String,
        calculate_reading_time content
          = if word_count content = 0 then "< 1 min"
            else if (word_count content + 199) / 200 = 1 then "1 min"
            else toString ((word_count content + 199) / 200) ++ " mins")
    ∧ calculate_reading_time content200 = "1 min"
    ∧ calculate_reading_time content201 = "2 mins"
    ∧ calculate_reading_time "" = "< 1 min" := by
  refine ⟨fun content => ?_, by decide, by decide, rfl⟩
  simp only [calculate_reading_time]
  by_cases h : word_count content = 0
  · simp [h]
  · have h1 : ¬ ((word_count content + 199) / 200 < 1) := by omega
    simp [h, h1, beq_iff_eq]

/-- C6 counterexample: the delivery call returns the same value — a plain
`()` — for the "chat not found" response, the "not enough rights" response,
the HTTP 429 response, and a network timeout exception, so these cases are
not classified into four distinct DeliveryOutcome values. -/
theorem delivery_not_classified :
    (send_telegram_message "chan" (.resp 400 "Bad Request: chat not found")).2
        = Except.ok ()
    ∧ (send_telegram_message "chan"
          (.resp 400 "Bad Request: not enough rights")).2
        = (send_telegram_message "chan"
            (.resp 400 "Bad Request: chat not found")).2
    ∧ (send_telegram_message "chan"
          (.resp 429 "Too Many Requests: retry after 30")).2
        = (send_telegram_message "chan"
            (.resp 400 "Bad Request: chat not found")).2
    ∧ (send_telegram_message "chan" (.exc "TimeoutError")).2
        = (send_telegram_message "chan"
            (.resp 400 "Bad Request: chat not found")).2 :=
  ⟨rfl, rfl, rfl, rfl⟩

/-- C6 (amended): delivery never raises past its boundary — for every
destination response the call returns plain `()` — and performs no
classification: every non-success response goes through the same logging
branch, recording only the numeric status and the raw body, and every
exception through the same catch-all logging branch. -/
theorem delivery_error_handling (channel : String) :
    (∀ r : TgResponse, (send_telegram_message channel r).2 = Except.ok ())
    ∧ (∀ (status : Nat) (body : String), status ≠ 200 →
        (send_telegram_message channel (.resp status body)).1
          = [LogEntry.info
                ("Attempting to send message to channel: " ++ channel),
             LogEntry.error ("Failed to send message: " ++ toString status),
             LogEntry.error ("Response: " ++ body)])
    ∧ (∀ e, (send_telegram_message channel (.exc e)).1
          = [LogEntry.info
                ("Attempting to send message to channel: " ++ channel),
             LogEntry.error ("Error while sending message: " ++ e)]) := by
  refine ⟨fun r => rfl, fun status body h => ?_, fun e => rfl⟩
  simp [send_telegram_message, beq_iff_eq, h]

/-- C6 witness: the amended delivery facts at a concrete 429 response. -/
theorem delivery_error_handling_witness :
    (send_telegram_message "chan" (.resp 429 "Too Many Requests")).2
        = Except.ok ()
    ∧ (429 : Nat) ≠ 200
    ∧ (send_telegram_message "chan" (.resp 429 "Too Many Requests")).1
        = [LogEntry.info
              ("Attempting to send message to channel: " ++ "chan"),
           LogEntry.error ("Failed to send message: " ++ toString (429 : Nat)),
           LogEntry.error ("Response: " ++ "Too Many Requests")] :=
  ⟨(delivery_error_handling "chan").1 _, by decide,
   (delivery_error_handling "chan").2.1 429 "Too Many Requests" (by decide)⟩

/-- C9: under the provider invariant that `'media' in tweet.entities` holds
exactly when the media list is nonempty, a tweet whose media list has a
photo-type entry is sent as exactly its first photo-type entry with the
caption — every other media reference is dropped — and a tweet with no
photo-type entry is sent as a plain text message with no attachment. -/
theorem media_attachment (account : String) (t : Tweet)
    (hinv : t.entities_has_media = !t.media.isEmpty) :
    (∀ m, t.media.find? (fun x => x.type == "photo") = some m →
        send_to_telegram account t
          = OutMsg.photo m.media_url_https (tweet_caption account t))
    ∧ (t.media.find? (fun x => x.type == "photo") = none →
        send_to_telegram account t = OutMsg.text (tweet_caption account t)) := by
  constructor
  · intro m hm
    have hne : t.media ≠ [] := by
      intro hnil
      rw [hnil] at hm
      simp at hm
    have hflag : t.entities_has_media = true := by
      rw [hinv]
      simp [hne]
    simp [send_to_telegram, hflag, hm]
  · intro hm
    cases hflag : t.entities_has_media <;>
      simp [send_to_telegram, hflag, hm]

/-- C9 witness: the first of two photo entries (after a video entry) is
attached; a tweet without media is sent as plain text. -/
theorem media_attachment_witness :
    send_to_telegram "acct"
        ⟨1, "hi", true, [⟨"video", "v"⟩, ⟨"photo", "u1"⟩, ⟨"photo", "u2"⟩]⟩
      = OutMsg.photo "u1"
          (tweet_caption "acct"
            ⟨1, "hi", true, [⟨"video", "v"⟩, ⟨"photo", "u1"⟩, ⟨"photo", "u2"⟩]⟩)
    ∧ send_to_telegram "acct" ⟨2, "yo", false, []⟩
      = OutMsg.text (tweet_caption "acct" ⟨2, "yo", false, []⟩) :=
  ⟨(media_attachment "acct" _ (by decide)).1 ⟨"photo", "u1"⟩ (by decide),
   (media_attachment "acct" _ (by decide)).2 (by decide)⟩

/-- C10: when the fetch succeeds (status 200, articles key present) but no
article passes the filter, `get_ai_news` returns the fetch-failure apology,
not the no-results message of `format_news_message`; on every input it
either returns the apology, propagates the fetch exception, or formats a
nonempty article list, so the empty-list branch of `format_news_message` is
unreachable through `get_ai_news`. -/
theorem empty_filter_apology (sp : SentSplit) (tok : Tokenizer)
    (e d : String) :
    (∀ arts : List Article,
        arts.filter (article_qualifies ALLOWED_SOURCES KEYWORDS) = [] →
          get_ai_news sp tok e d (.resp 200 (some arts))
            = Except.ok "Sorry, I couldn't fetch any news at the moment. Please try again later.")
    ∧ format_news_message sp tok e d []
        = "No relevant AI news found at the moment."
    ∧ ("Sorry, I couldn't fetch any news at the moment. Please try again later."
        ≠ "No relevant AI news found at the moment.")
    ∧ (∀ r : NewsResult,
        get_ai_news sp tok e d r
            = Except.ok "Sorry, I couldn't fetch any news at the moment. Please try again later."
          ∨ get_ai_news sp tok e d r = Except.error ()
          ∨ ∃ a rest, get_ai_news sp tok e d r
              = Except.ok (format_news_message sp tok e d (a :: rest))) := by
  refine ⟨fun arts h => ?_, rfl, by decide, fun r => ?_⟩
  · simp [get_ai_news, fetch_ai_news, h]
  · cases r with
    | exc => right; left; rfl
    | resp status payload =>
      by_cases hs : status == 200
      · cases payload with
        | none => left; simp [get_ai_news, fetch_ai_news, hs]
        | some arts =>
          rcases hf : arts.filter (article_qualifies ALLOWED_SOURCES KEYWORDS)
            with _ | ⟨a, rest⟩
          · left
            simp [get_ai_news, fetch_ai_news, hs, hf]
          · right; right
            exact ⟨a, rest, by simp [get_ai_news, fetch_ai_news, hs, hf]⟩
      · left
        simp [get_ai_news, fetch_ai_news, hs]

/-- C10 witness: a fetched article from a non-allow-listed source is
filtered out and the apology message is returned. -/
theorem empty_filter_apology_witness :
    ([(⟨"RandomBlog", "nothing here", "", ""⟩ : Article)].filter
        (article_qualifies ALLOWED_SOURCES KEYWORDS) = [])
    ∧ get_ai_news wSplit wTok "🤖" "June 01, 2024"
        (.resp 200 (some [⟨"RandomBlog", "nothing here", "", ""⟩]))
      = Except.ok "Sorry, I couldn't fetch any news at the moment. Please try again later." :=
  ⟨by decide,
   (empty_filter_apology wSplit wTok "🤖" "June 01, 2024").1 _ (by decide)⟩
